import Mathlib

/-!
Shallow embedding of the real-time price feed subsystem of the PurpDex
dashboard.  The repository contains three evolutionary variants of the
useRealTimePrice hook; the embedding below covers

  * the full streaming/polling/simulation variant (the WebSocket hook:
    SYMBOL_MAPPING, updatePriceSmooth throttle, connectWebSocket,
    startPolling, startSimulation, cleanup), and
  * the simulation-only variant at src/hooks/useRealTimePrice.ts
    (its updatePrices tick body, embedded as updatePricesEntry and
    updatePricesTick).

JavaScript numbers are modelled as rationals, timestamps in milliseconds
as naturals, Math.random results as oracle parameters, JS Map as an
association list with overwrite-on-set semantics, and timers and the
WebSocket handle as explicit fields of a FeedState record whose handlers
are state-transition functions.  Math.sin of the wall clock, used only by
the simulation trend term, is passed in as an oracle parameter as well.
-/

namespace PurpDex

/-- One tracked asset, with the fields the feed code reads: id, the
reference (seed) price, change and volume, and the market cap used to
derive simulated volatility. -/
structure CryptoAsset where
  id : String
  price : ℚ
  change24h : ℚ
  volume24h : ℚ
  marketCap : ℚ
deriving DecidableEq

/-- The latest market snapshot for one instrument, as stored in the
Price Store. -/
structure PriceUpdate where
  id : String
  price : ℚ
  change24h : ℚ
  volume24h : ℚ
  timestamp : ℕ
deriving DecidableEq

/-- Parsed payload of one Binance ticker message; numeric fields are the
parseFloat results of the string fields of the wire format. -/
structure BinanceTickerData where
  s : String
  c : ℚ
  P : ℚ
  v : ℚ
deriving DecidableEq

/-- A parsed stream message: the stream name and its ticker payload. -/
structure BinanceStreamData where
  stream : String
  data : BinanceTickerData
deriving DecidableEq

/-- One row of the batch 24hr ticker endpoint response. -/
structure BinanceTicker where
  symbol : String
  lastPrice : ℚ
  priceChangePercent : ℚ
  volume : ℚ
deriving DecidableEq

/-- The connectionType state of the hook. -/
inductive ConnectionType where
  | websocket
  | polling
  | simulation
deriving DecidableEq

/-- What kind of interval handle pollingIntervalRef currently holds
(the code reuses the same ref for the polling interval and the
simulation interval). -/
inductive IntervalKind where
  | poll
  | sim
deriving DecidableEq

/-- The mutable state of one Feed Manager (hook) instance: the React
state cells, the refs, and the pending timers.  reconnectTimeout holds
the delay of a scheduled-but-unfired backoff reconnect;
untrackedRetryTimer records the setTimeout of connectWebSocket issued
on a poll failure, whose id the code stores in no ref;
orphanedIntervals collects interval handles that were overwritten in
pollingIntervalRef without being cleared. -/
structure FeedState where
  prices : List (String × PriceUpdate)
  isConnected : Bool
  lastUpdate : Option ℕ
  connectionType : ConnectionType
  reconnectAttempts : ℕ
  lastPriceUpdate : List (String × ℕ)
  ws : Option Bool
  pollingInterval : Option IntervalKind
  reconnectTimeout : Option ℕ
  pendingFetch : Bool
  untrackedRetryTimer : Bool
  orphanedIntervals : List IntervalKind
deriving DecidableEq

/-- JS Map.set: replace any entry for the key and make the new binding
the one List.lookup finds. -/
def mapSet {α : Type} (m : List (String × α)) (k : String) (v : α) :
    List (String × α) :=
  (k, v) :: m.filter (fun p => p.1 != k)

/-- MAX_RECONNECT_ATTEMPTS of the WebSocket hook. -/
def MAX_RECONNECT_ATTEMPTS : ℕ := 5

/-- RECONNECT_DELAY (ms) of the WebSocket hook. -/
def RECONNECT_DELAY : ℕ := 3000

/-- POLLING_INTERVAL (ms) of the WebSocket hook. -/
def POLLING_INTERVAL : ℕ := 10000

/-- PRICE_SMOOTHING_THRESHOLD (ms): minimum spacing of accepted updates
per instrument id. -/
def PRICE_SMOOTHING_THRESHOLD : ℕ := 100

/-- SYMBOL_MAPPING of the WebSocket hook: internal asset id to Binance
symbol, in object insertion order. -/
def SYMBOL_MAPPING : List (String × String) :=
  [ ("bitcoin", "BTCUSDT")
  , ("ethereum", "ETHUSDT")
  , ("solana", "SOLUSDT")
  , ("cardano", "ADAUSDT")
  , ("avalanche-2", "AVAXUSDT")
  , ("polkadot", "DOTUSDT")
  , ("chainlink", "LINKUSDT")
  , ("polygon", "MATICUSDT")
  , ("uniswap", "UNIUSDT")
  , ("litecoin", "LTCUSDT")
  , ("bitcoin-cash", "BCHUSDT")
  , ("stellar", "XLMUSDT")
  , ("cosmos", "ATOMUSDT")
  , ("algorand", "ALGOUSDT")
  , ("tezos", "XTZUSDT")
  , ("filecoin", "FILUSDT")
  , ("the-sandbox", "SANDUSDT")
  , ("decentraland", "MANAUSDT")
  , ("axie-infinity", "AXSUSDT")
  , ("near", "NEARUSDT") ]

/-- String.prototype.includes: sub occurs contiguously in s. -/
def strIncludes (s sub : String) : Bool :=
  (List.range (s.data.length + 1)).any (fun i => sub.data.isPrefixOf (s.data.drop i))

/-- String.prototype.toLowerCase, as a character-wise map. -/
def jsToLower (s : String) : String := ⟨s.data.map Char.toLower⟩

/-- The Binance symbols of the watchlist, in order:
cryptoData.map(c to SYMBOL_MAPPING[c.id]).filter(Boolean). -/
def symsOf (cryptoData : List CryptoAsset) : List String :=
  cryptoData.filterMap (fun c => List.lookup c.id SYMBOL_MAPPING)

/-- updatePriceSmooth: the per-instrument Update Throttle.  An update is
dropped if fewer than PRICE_SMOOTHING_THRESHOLD ms passed since the last
accepted update for the same id (a missing throttle entry counts as 0);
otherwise the throttle entry, the Price Store and the global lastUpdate
are refreshed.  now is Date.now() in ms. -/
def updatePriceSmooth (now : ℕ) (cryptoId : String) (newPrice : PriceUpdate)
    (st : FeedState) : FeedState :=
  let last := (List.lookup cryptoId st.lastPriceUpdate).getD 0
  if now - last < PRICE_SMOOTHING_THRESHOLD then st
  else
    { st with
      lastPriceUpdate := mapSet st.lastPriceUpdate cryptoId now
      prices := mapSet st.prices cryptoId newPrice
      lastUpdate := some now }

/-- ws.onmessage: none models a payload on which JSON.parse threw, which
the try/catch discards.  A parsed message is matched against
SYMBOL_MAPPING by substring on the lowercased symbol; unresolved streams
are discarded, resolved ones are submitted through the throttle. -/
def wsOnMessage (now : ℕ) (msg : Option BinanceStreamData) (st : FeedState) :
    FeedState :=
  match msg with
  | none => st
  | some d =>
    match SYMBOL_MAPPING.find? (fun p => strIncludes d.stream (jsToLower p.2)) with
    | none => st
    | some p =>
      updatePriceSmooth now p.1 ⟨p.1, d.data.c, d.data.P, d.data.v, now⟩ st

/-- startSimulation, state part: connectionType to simulation, connected
true, clear pollingIntervalRef and store the new simulation interval in
it. -/
def startSimulation (st : FeedState) : FeedState :=
  let s1 := { st with connectionType := ConnectionType.simulation, isConnected := true }
  let s2 := { s1 with pollingInterval := none }
  { s2 with pollingInterval := some IntervalKind.sim }

/-- The synchronous prefix of fetchBinancePrices: with no mapped symbols
it starts the simulation instead of fetching; otherwise a fetch is now
in flight. -/
def fetchBinanceBegin (cryptoData : List CryptoAsset) (st : FeedState) : FeedState :=
  if symsOf cryptoData = [] then startSimulation st
  else { st with pendingFetch := true }

/-- startPolling: clear the interval ref, set connectionType to polling,
run the synchronous part of an immediate fetch, then store the new
polling interval in the ref.  An interval handle the immediate fetch had
just installed (the simulation interval, when no symbols are mapped) is
overwritten without being cleared and becomes orphaned. -/
def startPolling (cryptoData : List CryptoAsset) (st : FeedState) : FeedState :=
  let s1 := { st with pollingInterval := none }
  let s2 := { s1 with connectionType := ConnectionType.polling }
  let s3 := fetchBinanceBegin cryptoData s2
  { s3 with
    pollingInterval := some IntervalKind.poll
    orphanedIntervals := s3.orphanedIntervals ++ s3.pollingInterval.toList }

/-- connectWebSocket: no-op on an already open socket; with no mapped
symbols fall through to polling; otherwise open a new (not yet open)
socket. -/
def connectWebSocket (cryptoData : List CryptoAsset) (st : FeedState) : FeedState :=
  if st.ws = some true then st
  else if symsOf cryptoData = [] then startPolling cryptoData st
  else { st with ws := some false }

/-- ws.onopen: connected, connectionType websocket, reconnect counter
reset to 0. -/
def wsOnOpen (st : FeedState) : FeedState :=
  { st with
    ws := some true
    isConnected := true
    connectionType := ConnectionType.websocket
    reconnectAttempts := 0 }

/-- ws.onclose: mark disconnected; on an abnormal closure with the
reconnect counter below MAX_RECONNECT_ATTEMPTS, increment the counter
and schedule a reconnect after RECONNECT_DELAY times 2 to the previous
counter value; otherwise fall through to polling. -/
def wsOnClose (cryptoData : List CryptoAsset) (wasClean : Bool) (st : FeedState) :
    FeedState :=
  let s1 := { st with isConnected := false, ws := some false }
  if wasClean = false ∧ st.reconnectAttempts < MAX_RECONNECT_ATTEMPTS then
    { s1 with
      reconnectAttempts := st.reconnectAttempts + 1
      reconnectTimeout := some (RECONNECT_DELAY * 2 ^ st.reconnectAttempts) }
  else startPolling cryptoData s1

/-- ws.onerror: mark disconnected and start polling. -/
def wsOnError (cryptoData : List CryptoAsset) (st : FeedState) : FeedState :=
  startPolling cryptoData { st with isConnected := false }

/-- Completion of a successful batch fetch: each returned ticker whose
symbol resolves in SYMBOL_MAPPING is submitted through the throttle;
if the hook was disconnected it becomes connected in polling mode. -/
def fetchBinanceSuccess (now : ℕ) (tickers : List BinanceTicker) (st : FeedState) :
    FeedState :=
  let s1 := tickers.foldl
    (fun acc t =>
      match SYMBOL_MAPPING.find? (fun p => p.2 == t.symbol) with
      | none => acc
      | some p =>
        updatePriceSmooth now p.1 ⟨p.1, t.lastPrice, t.priceChangePercent, t.volume, now⟩ acc)
    st
  let s2 :=
    if s1.isConnected = false then
      { s1 with isConnected := true, connectionType := ConnectionType.polling }
    else s1
  { s2 with pendingFetch := false }

/-- Completion of a failed batch fetch: while in polling mode, mark
disconnected and schedule connectWebSocket after 5s via a bare
setTimeout whose id is stored in no ref. -/
def fetchBinanceFailure (st : FeedState) : FeedState :=
  let s0 := { st with pendingFetch := false }
  if st.connectionType = ConnectionType.polling then
    { s0 with isConnected := false, untrackedRetryTimer := true }
  else s0

/-- The scheduled backoff reconnect fires: the timer is consumed and
connectWebSocket runs. -/
def fireReconnectTimeout (cryptoData : List CryptoAsset) (st : FeedState) : FeedState :=
  connectWebSocket cryptoData { st with reconnectTimeout := none }

/-- The untracked 5s poll-failure retry fires, if pending. -/
def fireUntrackedRetry (cryptoData : List CryptoAsset) (st : FeedState) : FeedState :=
  if st.untrackedRetryTimer then
    connectWebSocket cryptoData { st with untrackedRetryTimer := false }
  else st

/-- The hook cleanup (unsubscribe): close the socket, clear the interval
ref and the tracked reconnect timeout ref.  The untracked poll-failure
retry timer and any orphaned intervals are untouched, because the code
holds no reference to them. -/
def cleanup (st : FeedState) : FeedState :=
  { st with
    ws := st.ws.map (fun _ => false)
    pollingInterval := none
    reconnectTimeout := none }

/-- One instrument of one simulation tick of the WebSocket hook:
volatility clamped to the band 0.0001 to 0.005 from 1e9 over market cap,
a random walk step plus a sine trend term, the new price floored at one
tenth of the reference price, change24h recomputed as the percentage
deviation of the new price from the reference price, volume jittered by
plus or minus 2.5 percent.  r1 and r2 are the two Math.random draws and
sinNow the value of Math.sin at the current clock over 10000. -/
def simTickEntry (c : CryptoAsset) (u : PriceUpdate) (r1 r2 sinNow : ℚ) (now : ℕ) :
    PriceUpdate :=
  let volatility := max (0.0001 : ℚ) (min (0.005 : ℚ) (1000000000 / c.marketCap))
  let randomChange := (r1 - (0.5 : ℚ)) * 2 * volatility
  let trendFactor := sinNow * (0.0001 : ℚ)
  let totalChange := randomChange + trendFactor
  let newPrice := max (u.price * (1 + totalChange)) (c.price * (0.1 : ℚ))
  let change24h := ((newPrice - c.price) / c.price) * 100
  ⟨c.id, newPrice, change24h, u.volume24h * (1 + (r2 - (0.5 : ℚ)) * (0.05 : ℚ)), now⟩

/-- One instrument of one tick of updatePrices in the simulation-only
hook at src/hooks/useRealTimePrice.ts: volatility clamped to 0.0001 to
0.01, a momentum term from the price history, the new price floored at
half the reference price, change24h set to the reference change plus one
tenth of the percentage deviation from the reference price, volume
jittered by (r2 - 0.5) * 0.02 and floored at half the reference
volume. -/
def updatePricesEntry (c : CryptoAsset) (u : PriceUpdate) (history : List ℚ)
    (r1 r2 : ℚ) (now : ℕ) : PriceUpdate :=
  let volatilityFactor := max (0.0001 : ℚ) (min (0.01 : ℚ) (1000000000 / c.marketCap))
  let momentum :=
    if 3 ≤ history.length then
      (history.getD (history.length - 1) 0 - history.getD (history.length - 3) 0)
        / history.getD (history.length - 3) 0
    else 0
  let randomChange := (r1 - (0.5 : ℚ)) * volatilityFactor
  let momentumInfluence := momentum * (0.1 : ℚ)
  let totalChange := randomChange + momentumInfluence
  let newPrice := max (u.price * (1 + totalChange)) (c.price * (0.5 : ℚ))
  let priceChangeFromOriginal := ((newPrice - c.price) / c.price) * 100
  let new24hChange := c.change24h + priceChangeFromOriginal * (0.1 : ℚ)
  let volumeChange := (r2 - (0.5 : ℚ)) * (0.02 : ℚ)
  let newVolume := max (u.volume24h * (1 + volumeChange)) (c.volume24h * (0.5 : ℚ))
  ⟨c.id, newPrice, new24hChange, newVolume, now⟩

/-- One forEach step of the updatePrices tick: read the previous entry
from the snapshot prev, read and update the per-id history, write the
new update.  rand gives the two Math.random draws of the iteration. -/
def updStep (prev : List (String × PriceUpdate)) (rand : String → ℚ × ℚ) (now : ℕ)
    (s : List (String × PriceUpdate) × List (String × List ℚ)) (c : CryptoAsset) :
    List (String × PriceUpdate) × List (String × List ℚ) :=
  match List.lookup c.id prev with
  | none => s
  | some u =>
    let history := (List.lookup c.id s.2).getD []
    let v := updatePricesEntry c u history (rand c.id).1 (rand c.id).2 now
    (mapSet s.1 c.id v,
     mapSet s.2 c.id ((history.drop (history.length - 19)) ++ [v.price]))

/-- One whole updatePrices tick of the simulation-only hook: every
watchlist instrument with an entry in the snapshot is updated; reads of
prices go to the tick-start snapshot, history reads and writes go
through the threaded ref state. -/
def updatePricesTick (cryptoData : List CryptoAsset) (rand : String → ℚ × ℚ)
    (now : ℕ) (st : List (String × PriceUpdate) × List (String × List ℚ)) :
    List (String × PriceUpdate) × List (String × List ℚ) :=
  cryptoData.foldl (updStep st.1 rand now) st

/-- A run of consecutive updatePrices ticks, each with its own random
draws and clock value. -/
def updatePricesRun (cryptoData : List CryptoAsset)
    (ticks : List ((String → ℚ × ℚ) × ℕ))
    (st : List (String × PriceUpdate) × List (String × List ℚ)) :
    List (String × PriceUpdate) × List (String × List ℚ) :=
  ticks.foldl (fun s tk => updatePricesTick cryptoData tk.1 tk.2 s) st

/-- The state after the k-th consecutive abnormal closure of the stream:
the first closure hits the initial connection, every later one hits the
connection opened by the fired backoff reconnect. -/
def wsCloseSeq (cryptoData : List CryptoAsset) (s0 : FeedState) : ℕ → FeedState
  | 0 => wsOnClose cryptoData false s0
  | n + 1 =>
      wsOnClose cryptoData false
        (fireReconnectTimeout cryptoData (wsCloseSeq cryptoData s0 n))

/-- The id of the first SYMBOL_MAPPING entry, used by concrete
scenarios. -/
def btcId : String := "bitcoin"

/-- A one-instrument watchlist whose id resolves in SYMBOL_MAPPING. -/
def data0 : List CryptoAsset := [⟨btcId, 43000, 2, 28000000000, 850000000000⟩]

/-- A fresh hook state: empty store, empty throttle map, an open socket,
no timers. -/
def freshState : FeedState :=
  ⟨[], false, none, ConnectionType.websocket, 0, [], some true, none, none,
    false, false, []⟩

/-- A stream message that parses fine but carries price 0: the close
field of the wire payload was the string 0, so parseFloat returned 0. -/
def zeroMsg : BinanceStreamData :=
  ⟨("btcusdt@ticker"), ⟨("BTCUSDT"), 0, (5.1 : ℚ), 28000000000⟩⟩

/-- The Price Store entry that accepting zeroMsg at t = 1000 produces. -/
def zeroUpd : PriceUpdate := ⟨btcId, 0, (5.1 : ℚ), 28000000000, 1000⟩

/-- A well-formed stream message with a positive price. -/
def okMsg : BinanceStreamData :=
  ⟨("btcusdt@ticker"), ⟨("BTCUSDT"), 43500, (5.1 : ℚ), 28000000000⟩⟩

/-- A hook state in polling mode with a fetch in flight, as reached
after streaming was exhausted. -/
def pollState0 : FeedState :=
  ⟨[], true, none, ConnectionType.polling, 5, [], some false,
    some IntervalKind.poll, none, true, false, []⟩

/-- A connected streaming-mode state with reconnect counter 0. -/
def errState0 : FeedState :=
  ⟨[], true, none, ConnectionType.websocket, 0, [], some true, none, none,
    false, false, []⟩

/-- Concrete instrument for simulation-tick scenarios: reference price
100, reference change 5, reference volume 1000, market cap 1e12. -/
def c7asset : CryptoAsset := ⟨("1"), 100, 5, 1000, 1000000000000⟩

/-- A store entry for c7asset sitting exactly at its reference
values. -/
def c7upd : PriceUpdate := ⟨("1"), 100, 5, 1000, 0⟩

end PurpDex

namespace PurpDex

/-! Helper lemmas about the association-list map and the updatePrices
fold. -/

theorem lookup_filter_ne {α : Type} (k k' : String) (h : k' ≠ k)
    (m : List (String × α)) :
    List.lookup k' (m.filter (fun p => p.1 != k)) = List.lookup k' m := by
  induction m with
  | nil => rfl
  | cons a t ih =>
    obtain ⟨a1, a2⟩ := a
    by_cases h1 : a1 = k
    · have hk : (k' == k) = false := by simpa using h
      simp [List.filter_cons, h1, List.lookup, hk, ih]
    · by_cases h2 : k' = a1
      · simp [List.filter_cons, h1, List.lookup, h2]
      · simp [List.filter_cons, h1, List.lookup, h2, ih]

theorem lookup_mapSet_self {α : Type} (m : List (String × α)) (k : String) (v : α) :
    List.lookup k (mapSet m k v) = some v := by
  simp [mapSet, List.lookup]

theorem lookup_mapSet_ne {α : Type} (m : List (String × α)) (k k' : String) (v : α)
    (h : k' ≠ k) :
    List.lookup k' (mapSet m k v) = List.lookup k' m := by
  simp only [mapSet, List.lookup, show (k' == k) = false by simpa using h]
  exact lookup_filter_ne k k' h m

theorem updatePriceSmooth_drop (now : ℕ) (i : String) (u : PriceUpdate)
    (st : FeedState)
    (h : now - (List.lookup i st.lastPriceUpdate).getD 0 < PRICE_SMOOTHING_THRESHOLD) :
    updatePriceSmooth now i u st = st := by
  unfold updatePriceSmooth
  rw [if_pos h]

theorem updatePriceSmooth_accept (now : ℕ) (i : String) (u : PriceUpdate)
    (st : FeedState)
    (h : ¬ (now - (List.lookup i st.lastPriceUpdate).getD 0 < PRICE_SMOOTHING_THRESHOLD)) :
    updatePriceSmooth now i u st =
      { st with
        lastPriceUpdate := mapSet st.lastPriceUpdate i now
        prices := mapSet st.prices i u
        lastUpdate := some now } := by
  unfold updatePriceSmooth
  rw [if_neg h]

end PurpDex

namespace PurpDex

theorem updFold_no_touch (prev : List (String × PriceUpdate))
    (rand : String → ℚ × ℚ) (now : ℕ) (ds : List CryptoAsset)
    (i : String) (h : ∀ d ∈ ds, d.id ≠ i) :
    ∀ s, List.lookup i (ds.foldl (updStep prev rand now) s).1 = List.lookup i s.1 ∧
      List.lookup i (ds.foldl (updStep prev rand now) s).2 = List.lookup i s.2 := by
  induction ds with
  | nil => intro s; exact ⟨rfl, rfl⟩
  | cons d t ih =>
    intro s
    have hd : d.id ≠ i := h d (List.mem_cons_self d t)
    have ht : ∀ x ∈ t, x.id ≠ i := fun x hx => h x (List.mem_cons_of_mem d hx)
    have step : List.lookup i (updStep prev rand now s d).1 = List.lookup i s.1 ∧
        List.lookup i (updStep prev rand now s d).2 = List.lookup i s.2 := by
      cases hl : List.lookup d.id prev with
      | none => simp [updStep, hl]
      | some u =>
        constructor
        · simp only [updStep, hl]
          exact lookup_mapSet_ne _ _ _ _ (Ne.symm hd)
        · simp only [updStep, hl]
          exact lookup_mapSet_ne _ _ _ _ (Ne.symm hd)
    have := ih ht (updStep prev rand now s d)
    simp only [List.foldl_cons]
    exact ⟨this.1.trans step.1, this.2.trans step.2⟩

theorem lookup_updatePricesTick (cryptoData : List CryptoAsset)
    (rand : String → ℚ × ℚ) (now : ℕ)
    (st : List (String × PriceUpdate) × List (String × List ℚ))
    (c : CryptoAsset)
    (hnd : (cryptoData.map (fun x => x.id)).Nodup) (hc : c ∈ cryptoData) :
    List.lookup c.id (updatePricesTick cryptoData rand now st).1 =
      Option.map
        (fun u => updatePricesEntry c u ((List.lookup c.id st.2).getD [])
          (rand c.id).1 (rand c.id).2 now)
        (List.lookup c.id st.1) := by
  obtain ⟨l1, l2, rfl⟩ := List.append_of_mem hc
  have hmap : ((l1 ++ c :: l2).map (fun x => x.id))
      = l1.map (fun x => x.id) ++ (c.id :: l2.map (fun x => x.id)) := by
    simp
  rw [hmap] at hnd
  rw [List.nodup_append] at hnd
  obtain ⟨h1n, h2n, hdisj⟩ := hnd
  have h1 : ∀ d ∈ l1, d.id ≠ c.id := by
    intro d hd he
    exact hdisj (List.mem_map_of_mem (fun x => x.id) hd)
      (by rw [he]; exact List.mem_cons_self _ _)
  have h2 : ∀ d ∈ l2, d.id ≠ c.id := by
    intro d hd he
    have : c.id ∉ l2.map (fun x => x.id) := (List.nodup_cons.mp h2n).1
    exact this (he ▸ List.mem_map_of_mem (fun x => x.id) hd)
  unfold updatePricesTick
  rw [List.foldl_append, List.foldl_cons]
  have A1 := updFold_no_touch st.1 rand now l1 c.id h1 st
  have A2 := updFold_no_touch st.1 rand now l2 c.id h2
    (updStep st.1 rand now (l1.foldl (updStep st.1 rand now) st) c)
  rw [A2.1]
  cases hl : List.lookup c.id st.1 with
  | none =>
    simp only [updStep, hl]
    rw [A1.1, hl]
    rfl
  | some u => simp [updStep, hl, A1.2, lookup_mapSet_self]

end PurpDex

namespace PurpDex

/-- Claim C9: a stream message whose payload fails to parse is discarded
whole: the Price Store, the connected flag, the connectionType and the
reconnect counter are all unchanged by processing it. -/
theorem malformed_message_discarded (now : ℕ) (s : FeedState) :
    wsOnMessage now none s = s ∧
    (wsOnMessage now none s).prices = s.prices ∧
    (wsOnMessage now none s).isConnected = s.isConnected ∧
    (wsOnMessage now none s).connectionType = s.connectionType ∧
    (wsOnMessage now none s).reconnectAttempts = s.reconnectAttempts :=
  ⟨rfl, rfl, rfl, rfl, rfl⟩

/-- Claim C8: on a tick of the simulation-only hook, the stored
volume24h is the previous volume multiplied by a factor inside the band
0.975 to 1.025 and floored at half the reference volume, the analogue of
the price floor of the same hook. -/
theorem volume_jitter_floored (c : CryptoAsset) (u : PriceUpdate)
    (history : List ℚ) (r1 r2 : ℚ) (now : ℕ)
    (h0 : 0 ≤ r2) (h1 : r2 ≤ 1) :
    ∃ f : ℚ, (0.975 : ℚ) ≤ f ∧ f ≤ (1.025 : ℚ) ∧
      (updatePricesEntry c u history r1 r2 now).volume24h =
        max (u.volume24h * f) (c.volume24h * (0.5 : ℚ)) ∧
      c.volume24h * (0.5 : ℚ) ≤ (updatePricesEntry c u history r1 r2 now).volume24h := by
  refine ⟨1 + (r2 - (0.5 : ℚ)) * (0.02 : ℚ), by norm_num; linarith, by norm_num; linarith,
    rfl, ?_⟩
  simp only [updatePricesEntry]
  exact le_max_right _ _

/-- Witness for volume_jitter_floored at r2 = 1 on the concrete
instrument c7asset. -/
theorem volume_jitter_floored_witness :
    (0 : ℚ) ≤ 1 ∧ (1 : ℚ) ≤ 1 ∧
    (∃ f : ℚ, (0.975 : ℚ) ≤ f ∧ f ≤ (1.025 : ℚ) ∧
      (updatePricesEntry c7asset c7upd [] 0 1 7).volume24h =
        max (c7upd.volume24h * f) (c7asset.volume24h * (0.5 : ℚ)) ∧
      c7asset.volume24h * (0.5 : ℚ) ≤ (updatePricesEntry c7asset c7upd [] 0 1 7).volume24h) :=
  ⟨by norm_num, by norm_num,
    volume_jitter_floored c7asset c7upd [] 0 1 7 (by norm_num) (by norm_num)⟩

/-- Claim C3: for two updates for the same id submitted through the
throttle, the first accepted at t1, a second arriving d1 under 100 ms
later is dropped without any state change, while a second arriving d2 at
least 100 ms later is accepted, overwriting the first in the Price Store
and refreshing the global lastUpdate. -/
theorem throttle_gates_second_update (st : FeedState) (i : String)
    (u1 u2 : PriceUpdate) (t1 d1 d2 : ℕ)
    (hacc : (List.lookup i st.lastPriceUpdate).getD 0 + 100 ≤ t1)
    (hd1 : d1 < 100) (hd2 : 100 ≤ d2) :
    List.lookup i (updatePriceSmooth t1 i u1 st).prices = some u1 ∧
    (updatePriceSmooth t1 i u1 st).lastUpdate = some t1 ∧
    updatePriceSmooth (t1 + d1) i u2 (updatePriceSmooth t1 i u1 st) =
      updatePriceSmooth t1 i u1 st ∧
    List.lookup i
      (updatePriceSmooth (t1 + d2) i u2 (updatePriceSmooth t1 i u1 st)).prices
      = some u2 ∧
    (updatePriceSmooth (t1 + d2) i u2 (updatePriceSmooth t1 i u1 st)).lastUpdate
      = some (t1 + d2) := by
  have hc1 : ¬ (t1 - (List.lookup i st.lastPriceUpdate).getD 0 < PRICE_SMOOTHING_THRESHOLD) := by
    simp only [PRICE_SMOOTHING_THRESHOLD]
    omega
  have e1 := updatePriceSmooth_accept t1 i u1 st hc1
  have hl1 : List.lookup i (updatePriceSmooth t1 i u1 st).lastPriceUpdate = some t1 := by
    rw [e1]
    exact lookup_mapSet_self _ _ _
  have e2 : updatePriceSmooth (t1 + d1) i u2 (updatePriceSmooth t1 i u1 st) =
      updatePriceSmooth t1 i u1 st := by
    apply updatePriceSmooth_drop
    rw [hl1]
    simp only [Option.getD_some, PRICE_SMOOTHING_THRESHOLD]
    omega
  have hc3 : ¬ (t1 + d2 - (List.lookup i
      (updatePriceSmooth t1 i u1 st).lastPriceUpdate).getD 0 < PRICE_SMOOTHING_THRESHOLD) := by
    rw [hl1]
    simp only [Option.getD_some, PRICE_SMOOTHING_THRESHOLD]
    omega
  have e3 := updatePriceSmooth_accept (t1 + d2) i u2 (updatePriceSmooth t1 i u1 st) hc3
  refine ⟨?_, ?_, e2, ?_, ?_⟩
  · rw [e1]
    exact lookup_mapSet_self _ _ _
  · rw [e1]
  · rw [e3]
    exact lookup_mapSet_self _ _ _
  · rw [e3]

/-- Witness for throttle_gates_second_update: fresh throttle map,
first update at 500, a second 99 ms later is dropped, a second 100 ms
later is accepted. -/
theorem throttle_gates_second_update_witness :
    ((List.lookup btcId freshState.lastPriceUpdate).getD 0 + 100 ≤ 500 ∧
      99 < 100 ∧ 100 ≤ 100) ∧
    (List.lookup btcId (updatePriceSmooth 500 btcId zeroUpd freshState).prices = some zeroUpd ∧
    (updatePriceSmooth 500 btcId zeroUpd freshState).lastUpdate = some 500 ∧
    updatePriceSmooth (500 + 99) btcId c7upd (updatePriceSmooth 500 btcId zeroUpd freshState) =
      updatePriceSmooth 500 btcId zeroUpd freshState ∧
    List.lookup btcId
      (updatePriceSmooth (500 + 100) btcId c7upd (updatePriceSmooth 500 btcId zeroUpd freshState)).prices
      = some c7upd ∧
    (updatePriceSmooth (500 + 100) btcId c7upd (updatePriceSmooth 500 btcId zeroUpd freshState)).lastUpdate
      = some (500 + 100)) :=
  ⟨⟨by decide, by decide, by decide⟩,
    throttle_gates_second_update freshState btcId zeroUpd c7upd 500 99 100
      (by decide) (by decide) (by decide)⟩

end PurpDex

namespace PurpDex

/-- Claim C1 counterexample: the stream handler performs no positivity
check, so a parseable message whose close field is the string 0 is
accepted through the throttle and stored with price 0, refuting the
claim that every accepted update has price strictly above 0 with no
precondition on the message contents. -/
theorem accepted_update_zero_price :
    List.lookup btcId ((wsOnMessage 1000 (some zeroMsg) freshState).prices)
      = some zeroUpd ∧
    ¬ (0 < zeroUpd.price) := by
  constructor
  · rfl
  · simp [zeroUpd]

/-- Claim C1 amended: only the simulation tick guarantees positivity,
via the price floor at a tenth of the reference price; for an instrument
with positive reference price every simulated update has positive price,
while the stream and polling handlers store the parsed message price
unchecked. -/
theorem sim_tick_price_positive (c : CryptoAsset) (u : PriceUpdate)
    (r1 r2 sinNow : ℚ) (now : ℕ) (h : 0 < c.price) :
    0 < (simTickEntry c u r1 r2 sinNow now).price := by
  simp only [simTickEntry]
  have h1 : 0 < c.price * (0.1 : ℚ) := by nlinarith
  exact lt_of_lt_of_le h1 (le_max_right _ _)

/-- Witness for sim_tick_price_positive on the concrete instrument
c7asset. -/
theorem sim_tick_price_positive_witness :
    (0 : ℚ) < c7asset.price ∧
    0 < (simTickEntry c7asset c7upd (0.3 : ℚ) (0.6 : ℚ) (0.2 : ℚ) 400).price :=
  ⟨by norm_num [c7asset],
    sim_tick_price_positive c7asset c7upd (0.3 : ℚ) (0.6 : ℚ) (0.2 : ℚ) 400
      (by norm_num [c7asset])⟩

/-- Claim C7 counterexample: on a tick of the simulation-only hook at
the cited lines, starting exactly at the reference values with the
random draw 0.5 and empty history, the price stays 100, the pure
deviation from the reference is 0, yet the stored change24h is the
reference change 5, refuting the claimed equality with the pure
deviation formula. -/
theorem change24h_not_pure_deviation :
    (updatePricesEntry c7asset c7upd [] (0.5 : ℚ) (0.5 : ℚ) 7).change24h = 5 ∧
    ((updatePricesEntry c7asset c7upd [] (0.5 : ℚ) (0.5 : ℚ) 7).price - c7asset.price)
        / c7asset.price * 100 = 0 ∧
    (updatePricesEntry c7asset c7upd [] (0.5 : ℚ) (0.5 : ℚ) 7).change24h ≠
      ((updatePricesEntry c7asset c7upd [] (0.5 : ℚ) (0.5 : ℚ) 7).price - c7asset.price)
        / c7asset.price * 100 := by
  have hp : (updatePricesEntry c7asset c7upd [] (0.5 : ℚ) (0.5 : ℚ) 7).price = 100 := by
    show max ((100 : ℚ) * (1 + (((0.5 : ℚ) - (0.5 : ℚ)) *
        max (0.0001 : ℚ) (min (0.01 : ℚ) (1000000000 / (1000000000000 : ℚ))) +
        (if 3 ≤ ([] : List ℚ).length then
          (([] : List ℚ).getD (([] : List ℚ).length - 1) 0 -
              ([] : List ℚ).getD (([] : List ℚ).length - 3) 0)
            / ([] : List ℚ).getD (([] : List ℚ).length - 3) 0
        else 0) * (0.1 : ℚ)))) ((100 : ℚ) * (0.5 : ℚ)) = 100
    norm_num [max_def]
  have hc : (updatePricesEntry c7asset c7upd [] (0.5 : ℚ) (0.5 : ℚ) 7).change24h =
      c7asset.change24h +
        (((updatePricesEntry c7asset c7upd [] (0.5 : ℚ) (0.5 : ℚ) 7).price -
          c7asset.price) / c7asset.price * 100) * (0.1 : ℚ) := rfl
  refine ⟨?_, ?_, ?_⟩
  · rw [hc, hp]
    norm_num [c7asset]
  · rw [hp]
    norm_num [c7asset]
  · rw [hc, hp]
    norm_num [c7asset]

end PurpDex

namespace PurpDex

/-- Claim C7 amended: on every tick of the simulation-only hook the
stored change24h equals the reference change24h plus one tenth of the
percentage deviation of the new price from the reference price; it is a
function of the new price and the reference values only and does not
compound the change24h of the previous tick, as replacing that field by
any value x yields the same stored update. -/
theorem change24h_reference_anchored (cryptoData : List CryptoAsset)
    (rand : String → ℚ × ℚ) (now : ℕ)
    (st : List (String × PriceUpdate) × List (String × List ℚ))
    (c : CryptoAsset) (u : PriceUpdate) (x : ℚ)
    (hnd : (cryptoData.map (fun y => y.id)).Nodup) (hc : c ∈ cryptoData)
    (hu : List.lookup c.id st.1 = some u) :
    ∃ v, List.lookup c.id (updatePricesTick cryptoData rand now st).1 = some v ∧
      v.change24h = c.change24h + (((v.price - c.price) / c.price) * 100) * (0.1 : ℚ) ∧
      updatePricesEntry c ⟨u.id, u.price, x, u.volume24h, u.timestamp⟩
        ((List.lookup c.id st.2).getD []) (rand c.id).1 (rand c.id).2 now = v := by
  refine ⟨updatePricesEntry c u ((List.lookup c.id st.2).getD [])
    (rand c.id).1 (rand c.id).2 now, ?_, rfl, rfl⟩
  rw [lookup_updatePricesTick cryptoData rand now st c hnd hc, hu]
  rfl

/-- Witness for change24h_reference_anchored on a one-instrument
watchlist sitting at its reference entry. -/
theorem change24h_reference_anchored_witness :
    (([c7asset].map (fun y => y.id)).Nodup ∧ c7asset ∈ [c7asset] ∧
      List.lookup c7asset.id ([(c7asset.id, c7upd)], ([] : List (String × List ℚ))).1
        = some c7upd) ∧
    (∃ v, List.lookup c7asset.id
        (updatePricesTick [c7asset] (fun _ => ((0.7 : ℚ), (0.4 : ℚ))) 9
          ([(c7asset.id, c7upd)], ([] : List (String × List ℚ)))).1 = some v ∧
      v.change24h = c7asset.change24h +
        (((v.price - c7asset.price) / c7asset.price) * 100) * (0.1 : ℚ) ∧
      updatePricesEntry c7asset ⟨c7upd.id, c7upd.price, 42, c7upd.volume24h, c7upd.timestamp⟩
        ((List.lookup c7asset.id ([(c7asset.id, c7upd)],
            ([] : List (String × List ℚ))).2).getD [])
        ((fun (_ : String) => ((0.7 : ℚ), (0.4 : ℚ))) c7asset.id).1
        ((fun (_ : String) => ((0.7 : ℚ), (0.4 : ℚ))) c7asset.id).2 9 = v) :=
  ⟨⟨by decide, List.mem_singleton.mpr rfl, rfl⟩,
    change24h_reference_anchored [c7asset] (fun _ => ((0.7 : ℚ), (0.4 : ℚ))) 9
      ([(c7asset.id, c7upd)], ([] : List (String × List ℚ))) c7asset c7upd 42
      (by decide) (List.mem_singleton.mpr rfl) rfl⟩

/-- Claim C2: for an instrument with positive market cap, nonnegative
reference price and an existing Price Store entry at or above a tenth of
the reference price, the entry stays at or above a tenth of the
reference price after any number of ticks of the simulation-only hook
(whose per-tick floor is in fact half the reference price).  Watchlist
ids are unique as the data model requires. -/
theorem sim_price_floor (cryptoData : List CryptoAsset) (c : CryptoAsset)
    (ticks : List ((String → ℚ × ℚ) × ℕ))
    (st : List (String × PriceUpdate) × List (String × List ℚ)) (u0 : PriceUpdate)
    (hnd : (cryptoData.map (fun y => y.id)).Nodup) (hc : c ∈ cryptoData)
    (hmc : 0 < c.marketCap) (hp : 0 ≤ c.price)
    (h0 : List.lookup c.id st.1 = some u0) (hb : c.price * (0.1 : ℚ) ≤ u0.price) :
    ∃ v, List.lookup c.id (updatePricesRun cryptoData ticks st).1 = some v ∧
      c.price * (0.1 : ℚ) ≤ v.price := by
  induction ticks generalizing st u0 with
  | nil => exact ⟨u0, h0, hb⟩
  | cons tk tl ih =>
    have hstep := lookup_updatePricesTick cryptoData tk.1 tk.2 st c hnd hc
    rw [h0, Option.map_some'] at hstep
    have hrun : updatePricesRun cryptoData (tk :: tl) st =
        updatePricesRun cryptoData tl (updatePricesTick cryptoData tk.1 tk.2 st) := by
      simp only [updatePricesRun, List.foldl_cons]
    rw [hrun]
    apply ih (updatePricesTick cryptoData tk.1 tk.2 st)
      (updatePricesEntry c u0 ((List.lookup c.id st.2).getD [])
        (tk.1 c.id).1 (tk.1 c.id).2 tk.2)
    · exact hstep
    · have hfloor : c.price * (0.5 : ℚ) ≤
          (updatePricesEntry c u0 ((List.lookup c.id st.2).getD [])
            (tk.1 c.id).1 (tk.1 c.id).2 tk.2).price := by
        simp only [updatePricesEntry]
        exact le_max_right _ _
      have : c.price * (0.1 : ℚ) ≤ c.price * (0.5 : ℚ) := by nlinarith
      linarith

/-- Witness for sim_price_floor: one instrument, one tick, seeded entry
at the reference price. -/
theorem sim_price_floor_witness :
    (([c7asset].map (fun y => y.id)).Nodup ∧ c7asset ∈ [c7asset] ∧
      (0 : ℚ) < c7asset.marketCap ∧ (0 : ℚ) ≤ c7asset.price ∧
      List.lookup c7asset.id ([(c7asset.id, c7upd)], ([] : List (String × List ℚ))).1
        = some c7upd ∧
      c7asset.price * (0.1 : ℚ) ≤ c7upd.price) ∧
    (∃ v, List.lookup c7asset.id
        (updatePricesRun [c7asset] [((fun _ => ((0.9 : ℚ), (0.2 : ℚ))), 11)]
          ([(c7asset.id, c7upd)], ([] : List (String × List ℚ)))).1 = some v ∧
      c7asset.price * (0.1 : ℚ) ≤ v.price) :=
  ⟨⟨by decide, List.mem_singleton.mpr rfl, by norm_num [c7asset],
      by norm_num [c7asset], rfl, by norm_num [c7asset, c7upd]⟩,
    sim_price_floor [c7asset] c7asset [((fun _ => ((0.9 : ℚ), (0.2 : ℚ))), 11)]
      ([(c7asset.id, c7upd)], ([] : List (String × List ℚ))) c7upd
      (by decide) (List.mem_singleton.mpr rfl) (by norm_num [c7asset])
      (by norm_num [c7asset]) rfl (by norm_num [c7asset, c7upd])⟩

end PurpDex

namespace PurpDex

/-- Claim C6 counterexample: from a connected streaming state with
reconnect counter 0 (below the maximum), the error handler immediately
falls through to polling and schedules no backoff retry, while the
abnormal-closure handler schedules a 3000 ms retry and keeps the
streaming connectionType, so the two handlers do not behave
identically. -/
theorem stream_error_not_like_closure :
    errState0.reconnectAttempts < MAX_RECONNECT_ATTEMPTS ∧
    (wsOnError data0 errState0).connectionType = ConnectionType.polling ∧
    (wsOnError data0 errState0).reconnectTimeout = none ∧
    (wsOnClose data0 false errState0).reconnectTimeout = some 3000 ∧
    (wsOnClose data0 false errState0).connectionType = ConnectionType.websocket ∧
    wsOnError data0 errState0 ≠ wsOnClose data0 false errState0 := by
  refine ⟨by decide, rfl, rfl, rfl, rfl, ?_⟩
  intro h
  have h2 := congrArg FeedState.connectionType h
  exact absurd h2 (by decide)

/-- Claim C6 amended: on a connection error with a nonempty resolved
symbol set, the manager marks disconnected and immediately falls back to
polling regardless of the reconnect counter; it schedules no backoff
retry of streaming and leaves the reconnect counter and any pending
reconnect timer unchanged. -/
theorem stream_error_falls_to_polling (cryptoData : List CryptoAsset)
    (st : FeedState) (h : ¬ (symsOf cryptoData = [])) :
    (wsOnError cryptoData st).isConnected = false ∧
    (wsOnError cryptoData st).connectionType = ConnectionType.polling ∧
    (wsOnError cryptoData st).reconnectTimeout = st.reconnectTimeout ∧
    (wsOnError cryptoData st).reconnectAttempts = st.reconnectAttempts := by
  simp only [wsOnError, startPolling, fetchBinanceBegin]
  rw [if_neg h]
  exact ⟨rfl, rfl, rfl, rfl⟩

/-- Witness for stream_error_falls_to_polling on the one-instrument
watchlist data0. -/
theorem stream_error_falls_to_polling_witness :
    (¬ (symsOf data0 = [])) ∧
    ((wsOnError data0 errState0).isConnected = false ∧
    (wsOnError data0 errState0).connectionType = ConnectionType.polling ∧
    (wsOnError data0 errState0).reconnectTimeout = errState0.reconnectTimeout ∧
    (wsOnError data0 errState0).reconnectAttempts = errState0.reconnectAttempts) :=
  ⟨by decide, stream_error_falls_to_polling data0 errState0 (by decide)⟩

end PurpDex

namespace PurpDex

theorem attempts_fetchBegin (d : List CryptoAsset) (s : FeedState) :
    (fetchBinanceBegin d s).reconnectAttempts = s.reconnectAttempts := by
  unfold fetchBinanceBegin
  split <;> rfl

theorem attempts_startPolling (d : List CryptoAsset) (s : FeedState) :
    (startPolling d s).reconnectAttempts = s.reconnectAttempts := by
  simp only [startPolling]
  rw [attempts_fetchBegin]

theorem attempts_connectWebSocket (d : List CryptoAsset) (s : FeedState) :
    (connectWebSocket d s).reconnectAttempts = s.reconnectAttempts := by
  unfold connectWebSocket
  split
  · rfl
  · split
    · rw [attempts_startPolling]
    · rfl

theorem ws_fetchBegin (d : List CryptoAsset) (s : FeedState) :
    (fetchBinanceBegin d s).ws = s.ws := by
  unfold fetchBinanceBegin
  split <;> rfl

theorem ws_startPolling (d : List CryptoAsset) (s : FeedState) :
    (startPolling d s).ws = s.ws := by
  simp only [startPolling]
  rw [ws_fetchBegin]

theorem ws_wsOnClose (d : List CryptoAsset) (w : Bool) (s : FeedState) :
    (wsOnClose d w s).ws = some false := by
  simp only [wsOnClose]
  split
  · rfl
  · rw [ws_startPolling]

theorem wsCloseSeq_ws (d : List CryptoAsset) (s0 : FeedState) (k : ℕ) :
    (wsCloseSeq d s0 k).ws = some false := by
  cases k with
  | zero => exact ws_wsOnClose d false s0
  | succ n => exact ws_wsOnClose d false _

theorem wsOnClose_retry (d : List CryptoAsset) (s : FeedState)
    (h : s.reconnectAttempts < MAX_RECONNECT_ATTEMPTS) :
    wsOnClose d false s =
      { s with
        isConnected := false
        ws := some false
        reconnectAttempts := s.reconnectAttempts + 1
        reconnectTimeout := some (RECONNECT_DELAY * 2 ^ s.reconnectAttempts) } := by
  simp only [wsOnClose]
  rw [if_pos ⟨trivial, h⟩]

theorem wsOnClose_exhausted (d : List CryptoAsset) (s : FeedState)
    (h : ¬ s.reconnectAttempts < MAX_RECONNECT_ATTEMPTS) :
    wsOnClose d false s =
      startPolling d { s with isConnected := false, ws := some false } := by
  simp only [wsOnClose]
  rw [if_neg (fun hc => h hc.2)]

theorem fireReconnect_retry (d : List CryptoAsset) (s : FeedState)
    (hsym : ¬ (symsOf d = [])) (hws : s.ws = some false) :
    fireReconnectTimeout d s = { s with reconnectTimeout := none, ws := some false } := by
  simp only [fireReconnectTimeout, connectWebSocket, hws, hsym]
  rfl

theorem tier_startPolling_syms (d : List CryptoAsset) (s : FeedState)
    (h : ¬ (symsOf d = [])) :
    (startPolling d s).connectionType = ConnectionType.polling := by
  simp only [startPolling, fetchBinanceBegin]
  rw [if_neg h]

theorem tier_startPolling_noSyms (d : List CryptoAsset) (s : FeedState)
    (h : symsOf d = []) :
    (startPolling d s).connectionType = ConnectionType.simulation := by
  simp only [startPolling, fetchBinanceBegin]
  rw [if_pos h]
  rfl

theorem wsCloseSeq_retryPhase (d : List CryptoAsset) (s0 : FeedState)
    (h0 : s0.reconnectAttempts = 0) (hsym : ¬ (symsOf d = [])) :
    ∀ k, k < 5 →
      (wsCloseSeq d s0 k).reconnectAttempts = k + 1 ∧
      (wsCloseSeq d s0 k).reconnectTimeout = some (RECONNECT_DELAY * 2 ^ k) ∧
      (wsCloseSeq d s0 k).connectionType = s0.connectionType := by
  intro k
  induction k with
  | zero =>
    intro _
    have e := wsOnClose_retry d s0 (by
      rw [h0]
      simp only [MAX_RECONNECT_ATTEMPTS]
      omega)
    show (wsOnClose d false s0).reconnectAttempts = 0 + 1 ∧
      (wsOnClose d false s0).reconnectTimeout = some (RECONNECT_DELAY * 2 ^ 0) ∧
      (wsOnClose d false s0).connectionType = s0.connectionType
    rw [e, h0]
    exact ⟨rfl, rfl, rfl⟩
  | succ n ihn =>
    intro hk
    have hn := ihn (by omega)
    have e1 := fireReconnect_retry d (wsCloseSeq d s0 n) hsym (wsCloseSeq_ws d s0 n)
    have hatt : (fireReconnectTimeout d (wsCloseSeq d s0 n)).reconnectAttempts = n + 1 := by
      rw [e1]
      exact hn.1
    have htier : (fireReconnectTimeout d (wsCloseSeq d s0 n)).connectionType
        = s0.connectionType := by
      rw [e1]
      exact hn.2.2
    have e2 := wsOnClose_retry d (fireReconnectTimeout d (wsCloseSeq d s0 n)) (by
      rw [hatt]
      simp only [MAX_RECONNECT_ATTEMPTS]
      omega)
    show (wsOnClose d false (fireReconnectTimeout d (wsCloseSeq d s0 n))).reconnectAttempts
        = (n + 1) + 1 ∧
      (wsOnClose d false (fireReconnectTimeout d (wsCloseSeq d s0 n))).reconnectTimeout
        = some (RECONNECT_DELAY * 2 ^ (n + 1)) ∧
      (wsOnClose d false (fireReconnectTimeout d (wsCloseSeq d s0 n))).connectionType
        = s0.connectionType
    rw [e2, hatt]
    exact ⟨rfl, rfl, htier⟩

theorem wsCloseSeq_attempts_le (d : List CryptoAsset) (s0 : FeedState)
    (h0 : s0.reconnectAttempts = 0) :
    ∀ k, (wsCloseSeq d s0 k).reconnectAttempts ≤ 5 := by
  have hstep : ∀ s : FeedState, s.reconnectAttempts ≤ 5 →
      (wsOnClose d false s).reconnectAttempts ≤ 5 := by
    intro s hs
    simp only [wsOnClose]
    split
    · next hcond =>
      have h5 := hcond.2
      simp only [MAX_RECONNECT_ATTEMPTS] at h5
      show s.reconnectAttempts + 1 ≤ 5
      omega
    · rw [attempts_startPolling]
      exact hs
  intro k
  induction k with
  | zero => exact hstep s0 (by omega)
  | succ n ih =>
    have hf : (fireReconnectTimeout d (wsCloseSeq d s0 n)).reconnectAttempts ≤ 5 := by
      unfold fireReconnectTimeout
      rw [attempts_connectWebSocket]
      exact ih
    exact hstep _ hf

theorem wsCloseSeq_noSyms_simulation (d : List CryptoAsset) (s0 : FeedState)
    (h : symsOf d = []) :
    (wsCloseSeq d s0 5).connectionType = ConnectionType.simulation := by
  have hws := wsCloseSeq_ws d s0 4
  have hfire : fireReconnectTimeout d (wsCloseSeq d s0 4) =
      startPolling d { (wsCloseSeq d s0 4) with reconnectTimeout := none } := by
    simp only [fireReconnectTimeout, connectWebSocket, hws, h]
    rfl
  show (wsOnClose d false (fireReconnectTimeout d (wsCloseSeq d s0 4))).connectionType
      = ConnectionType.simulation
  simp only [wsOnClose]
  split
  · show (fireReconnectTimeout d (wsCloseSeq d s0 4)).connectionType
        = ConnectionType.simulation
    rw [hfire]
    exact tier_startPolling_noSyms d _ h
  · exact tier_startPolling_noSyms d _ h

/-- Claim C4: with a resolvable symbol set, repeated abnormal closures
retry streaming exactly five times, the retry after the k-th closure
(k counted from 1, here index k - 1) scheduled with delay
3000 * 2 ^ (k - 1) ms, i.e. 3s, 6s, 12s, 24s, 48s, without changing the
connectionType; after the sixth closure the attempts are exhausted and
the connectionType becomes polling.  With an empty symbol set the same
point yields connectionType simulation directly, and the reconnect
counter never exceeds 5. -/
theorem stream_backoff_then_polling (cryptoData : List CryptoAsset) (s0 : FeedState)
    (h0 : s0.reconnectAttempts = 0) :
    (¬ (symsOf cryptoData = []) →
      (∀ k, k < 5 →
        (wsCloseSeq cryptoData s0 k).reconnectAttempts = k + 1 ∧
        (wsCloseSeq cryptoData s0 k).reconnectTimeout = some (3000 * 2 ^ k) ∧
        (wsCloseSeq cryptoData s0 k).connectionType = s0.connectionType) ∧
      (wsCloseSeq cryptoData s0 5).connectionType = ConnectionType.polling) ∧
    (symsOf cryptoData = [] →
      (wsCloseSeq cryptoData s0 5).connectionType = ConnectionType.simulation) ∧
    (∀ k, (wsCloseSeq cryptoData s0 k).reconnectAttempts ≤ 5) := by
  refine ⟨fun hsym => ⟨fun k hk => wsCloseSeq_retryPhase cryptoData s0 h0 hsym k hk, ?_⟩,
    fun hsym => wsCloseSeq_noSyms_simulation cryptoData s0 hsym,
    wsCloseSeq_attempts_le cryptoData s0 h0⟩
  have h4 := wsCloseSeq_retryPhase cryptoData s0 h0 hsym 4 (by omega)
  have e1 := fireReconnect_retry cryptoData (wsCloseSeq cryptoData s0 4) hsym
    (wsCloseSeq_ws cryptoData s0 4)
  have hatt : (fireReconnectTimeout cryptoData (wsCloseSeq cryptoData s0 4)).reconnectAttempts
      = 5 := by
    rw [e1]
    exact h4.1
  show (wsOnClose cryptoData false
      (fireReconnectTimeout cryptoData (wsCloseSeq cryptoData s0 4))).connectionType
      = ConnectionType.polling
  rw [wsOnClose_exhausted cryptoData _ (by
    rw [hatt]
    simp only [MAX_RECONNECT_ATTEMPTS]
    omega)]
  exact tier_startPolling_syms cryptoData _ hsym

/-- Witness for stream_backoff_then_polling on the one-instrument
watchlist data0 starting from the fresh state. -/
theorem stream_backoff_then_polling_witness :
    freshState.reconnectAttempts = 0 ∧
    ((¬ (symsOf data0 = []) →
      (∀ k, k < 5 →
        (wsCloseSeq data0 freshState k).reconnectAttempts = k + 1 ∧
        (wsCloseSeq data0 freshState k).reconnectTimeout = some (3000 * 2 ^ k) ∧
        (wsCloseSeq data0 freshState k).connectionType = freshState.connectionType) ∧
      (wsCloseSeq data0 freshState 5).connectionType = ConnectionType.polling) ∧
    (symsOf data0 = [] →
      (wsCloseSeq data0 freshState 5).connectionType = ConnectionType.simulation) ∧
    (∀ k, (wsCloseSeq data0 freshState k).reconnectAttempts ≤ 5)) :=
  ⟨rfl, stream_backoff_then_polling data0 freshState rfl⟩

end PurpDex

namespace PurpDex

/-- Claim C5 (code defect): after a poll failure schedules the 5s retry
of streaming via a bare setTimeout, the hook cleanup clears the socket,
the interval ref and the tracked reconnect timeout, but cannot clear the
untracked retry timer; when that timer later fires it reopens the
stream, and a subsequent message writes the Price Store even though
unsubscribe had already returned with an empty store. -/
theorem cleanup_misses_poll_retry :
    (fetchBinanceFailure pollState0).untrackedRetryTimer = true ∧
    (cleanup (fetchBinanceFailure pollState0)).untrackedRetryTimer = true ∧
    (cleanup (fetchBinanceFailure pollState0)).reconnectTimeout = none ∧
    (cleanup (fetchBinanceFailure pollState0)).pollingInterval = none ∧
    (cleanup (fetchBinanceFailure pollState0)).prices = [] ∧
    List.lookup btcId
      (wsOnMessage 1000 (some okMsg)
        (wsOnOpen (fireUntrackedRetry data0 (cleanup (fetchBinanceFailure pollState0))))).prices
      = some ⟨btcId, 43500, (5.1 : ℚ), 28000000000, 1000⟩ ∧
    (wsOnMessage 1000 (some okMsg)
        (wsOnOpen (fireUntrackedRetry data0 (cleanup (fetchBinanceFailure pollState0))))).prices
      ≠ (cleanup (fetchBinanceFailure pollState0)).prices := by
  refine ⟨rfl, rfl, rfl, rfl, rfl, rfl, ?_⟩
  intro h
  have h2 := congrArg List.length h
  exact absurd h2 (by decide)

end PurpDex
